import Mathlib

/-!
Verification of the trivy wrapper (`pkg/trivy/wrapper.go`): the subprocess
invoker `Run` and the report normalizer `parseScanReports`.

The Go code is shallowly embedded: pure computations (argument-list and
environment construction, JSON shape decoding, report aggregation) become
Lean functions; the effectful steps of `Run` (executable lookup, temp-file
creation, subprocess execution, file removal) are driven by an explicit
`RunWorld` record describing the outcome of each external interaction.
-/

/-- JSON values, the result of a successful syntactic JSON parse.
Numbers are modelled as integers; no claim inspects numeric fields. -/
inductive Json where
  | null : Json
  | bool : Bool → Json
  | num : Int → Json
  | str : String → Json
  | arr : List Json → Json
  | obj : List (String × Json) → Json

/-- Modelled from the spec: one vulnerability record of the scanner's JSON
output (`model.go` is outside the provided sources).  The component treats
vulnerabilities as opaque pass-through data; we model the single field the
spec's examples name, `VulnerabilityID`. -/
structure Vulnerability where
  VulnerabilityID : String
deriving Repr, DecidableEq

/-- Modelled from the spec: the `ScanReport` struct (`model.go` is outside
the provided sources).  Field names follow the JSON format in §6 of the
spec and the field accesses in `wrapper.go`: a `Target` string and a
`Vulnerabilities` slice.  A Go nil slice is modelled as `none`, a non-nil
slice as `some`. -/
structure ScanReport where
  Target : String
  Vulnerabilities : Option (List Vulnerability)
deriving Repr, DecidableEq

/-- Contents of the scan-report file as consumed by
`json.NewDecoder(reportFile).Decode`: either syntactically malformed JSON
(with the decoder's message) or a parsed JSON value. -/
inductive ReportInput where
  | malformed (msg : String) : ReportInput
  | json (j : Json) : ReportInput

/-- Lookup of an object field by name; with duplicate keys the last wins,
as in Go's `encoding/json`. -/
def getField (fields : List (String × Json)) (name : String) : Option Json :=
  fields.foldl (fun acc f => if f.1 = name then some f.2 else acc) none

/-- Model of `encoding/json` unmarshalling of one JSON value into a
`Vulnerability` struct: `null` leaves the zero value, an object fills the
`VulnerabilityID` field from a string (absent or `null` leaves `""`),
anything else is a type-mismatch error. -/
def decodeVulnerability : Json → Except String Vulnerability
  | Json.null => Except.ok ⟨""⟩
  | Json.obj fields =>
    match getField fields "VulnerabilityID" with
    | none => Except.ok ⟨""⟩
    | some Json.null => Except.ok ⟨""⟩
    | some (Json.str s) => Except.ok ⟨s⟩
    | some _ => Except.error "json: cannot unmarshal value into string field VulnerabilityID"
  | _ => Except.error "json: cannot unmarshal value into Vulnerability"

/-- Model of `encoding/json` unmarshalling of one JSON value into a
`ScanReport` struct: `null` leaves the zero value `{Target := "",
Vulnerabilities := none}`; an object fills `Target` from a string field and
`Vulnerabilities` from an array field (a `null` or absent array stays a nil
slice); any type mismatch is an error.  Unknown fields are ignored. -/
def decodeScanReport : Json → Except String ScanReport
  | Json.null => Except.ok ⟨"", none⟩
  | Json.obj fields => do
    let target ←
      match getField fields "Target" with
      | none => Except.ok ""
      | some Json.null => Except.ok ""
      | some (Json.str s) => Except.ok s
      | some _ => Except.error "json: cannot unmarshal value into string field Target"
    let vulns ←
      match getField fields "Vulnerabilities" with
      | none => Except.ok none
      | some Json.null => Except.ok none
      | some (Json.arr xs) => do
        let vs ← xs.mapM decodeVulnerability
        Except.ok (some vs)
      | some _ => Except.error "json: cannot unmarshal value into []Vulnerability field"
    Except.ok ⟨target, vulns⟩
  | _ => Except.error "json: cannot unmarshal value into ScanReport"

/-- Model of `json.NewDecoder(reportFile).Decode(&scanReports)` for
`scanReports : []ScanReport`: syntactically malformed input fails with the
decoder's error; JSON `null` yields the nil slice; a JSON array decodes
element-wise; any other value is a type-mismatch error. -/
def decodeScanReports : ReportInput → Except String (List ScanReport)
  | ReportInput.malformed msg => Except.error msg
  | ReportInput.json Json.null => Except.ok []
  | ReportInput.json (Json.arr xs) => xs.mapM decodeScanReport
  | ReportInput.json _ =>
    Except.error "json: cannot unmarshal value into []ScanReport"

/-- The error classes `parseScanReports` can return: a decode failure
wrapping the underlying decoder error, or the empty-report failure. -/
inductive ParseError where
  | decodeError (underlying : String) : ParseError
  | emptyReport : ParseError
deriving Repr, DecidableEq

/-- The human-readable message of each `parseScanReports` error, following
`xerrors.Errorf("decoding scan report from file %w", err)` and
`xerrors.New("expected at least one report")`. -/
def ParseError.message : ParseError → String
  | ParseError.decodeError e => "decoding scan report from file " ++ e
  | ParseError.emptyReport => "expected at least one report"

/-- Embedding of `(*wrapper).parseScanReports` (`wrapper.go` lines
115–135): decode the report file into a list of sub-reports, fail on a
decode error or on an empty list, otherwise aggregate: the first
sub-report's `Target`, and the vulnerabilities of all sub-reports appended
in order onto the freshly initialized slice `[]Vulnerability{}`. -/
def parseScanReports (input : ReportInput) : Except ParseError ScanReport :=
  match decodeScanReports input with
  | Except.error e => Except.error (ParseError.decodeError e)
  | Except.ok scanReports =>
    match scanReports with
    | [] => Except.error ParseError.emptyReport
    | first :: rest =>
      Except.ok
        { Target := first.Target
          Vulnerabilities :=
            some ((first :: rest).foldl
              (fun acc sr => acc ++ sr.Vulnerabilities.getD []) []) }

/-- The vulnerability list of a sub-report as Go's `append` sees it: a nil
slice contributes nothing. -/
def vulnsOf (r : ScanReport) : List Vulnerability :=
  r.Vulnerabilities.getD []

/-- The `etc.Trivy` configuration fields read by `Run` (the struct lives in
`pkg/etc`, outside the provided sources; the fields and their uses are
exactly those appearing in `wrapper.go`). -/
structure Trivy where
  ReportsDir : String
  CacheDir : String
  Severity : String
  VulnType : String
  IgnoreUnfixed : Bool
  DebugMode : Bool
deriving Repr, DecidableEq

/-- RegistryAuth wraps registry credentials (`wrapper.go` lines 17–20). -/
structure RegistryAuth where
  Username : String
  Password : String
deriving Repr, DecidableEq

/-- The argument list `Run` builds (`wrapper.go` lines 57–73): the fixed
base flags ending in the image reference, with `--ignore-unfixed` prepended
when configured, then `--debug` prepended when configured. -/
def trivyArgs (config : Trivy) (reportFileName imageRef : String) :
    List String :=
  let args := ["--no-progress",
    "--cache-dir", config.CacheDir,
    "--severity", config.Severity,
    "--vuln-type", config.VulnType,
    "--format", "json",
    "--output", reportFileName,
    imageRef]
  let args := if config.IgnoreUnfixed then ["--ignore-unfixed"] ++ args else args
  let args := if config.DebugMode then ["--debug"] ++ args else args
  args

/-- The subprocess environment `Run` builds (`wrapper.go` lines 79–87):
`os.Environ()` (passed in as `environ`), then the two credential entries
when both username and password are non-empty, then the non-SSL entry when
the registry is insecure.  Entries are the `KEY=value` strings produced by
`fmt.Sprintf`. -/
def cmdEnv (environ : List String) (auth : RegistryAuth)
    (insecureRegistry : Bool) : List String :=
  let env := environ
  let env :=
    if auth.Username ≠ "" ∧ auth.Password ≠ "" then
      env ++ ["TRIVY_USERNAME=" ++ auth.Username,
              "TRIVY_PASSWORD=" ++ auth.Password]
    else env
  let env := if insecureRegistry then env ++ ["TRIVY_NON_SSL=true"] else env
  env

/-- The environment overlay: the entries `Run` adds on top of the ambient
process environment. -/
def envOverlay (auth : RegistryAuth) (insecureRegistry : Bool) :
    List String :=
  cmdEnv [] auth insecureRegistry

/-- Outcomes of the external interactions one call to `Run` performs:
executable lookup, temp-file creation, the subprocess run (its error, the
captured stderr, the report file it wrote), and the temp-file removal. -/
structure RunWorld where
  trivyPath : Except String String
  tempFileName : Except String String
  execErr : Option String
  stderr : String
  reportFile : ReportInput
  removeOk : Bool

/-- The error classes one call to `Run` can return. -/
inductive RunError where
  | notFound (e : String) : RunError
  | tempFile (e : String) : RunError
  | scanFailed (msg : String) : RunError
  | parseFailed (e : ParseError) : RunError
deriving Repr, DecidableEq

/-- The command actually handed to `exec.Command`: its argument list and
environment. -/
structure Invocation where
  args : List String
  env : List String
deriving Repr, DecidableEq

/-- Everything observable about one call to `Run`: the value or error it
returns, whether the subprocess was launched (and with what), whether
removal of the temp file was attempted, and the warnings it logged. -/
structure RunResult where
  result : Except RunError ScanReport
  invocation : Option Invocation
  removeAttempted : Bool
  warnings : List String

/-- Embedding of `(*wrapper).Run` (`wrapper.go` lines 36–113): look up the
`trivy` executable, create the temp report file, register its deferred
removal (a removal failure is only logged), build the argument list and
environment, run the subprocess; on a non-zero exit return the
`xerrors.Errorf("running trivy: %v: %v", err, stderr)` error, otherwise
parse the report file. -/
def Run (config : Trivy) (world : RunWorld) (imageRef : String)
    (auth : RegistryAuth) (insecureRegistry : Bool) (environ : List String) :
    RunResult :=
  match world.trivyPath with
  | Except.error e =>
    { result := Except.error (RunError.notFound e)
      invocation := none, removeAttempted := false, warnings := [] }
  | Except.ok _executable =>
    match world.tempFileName with
    | Except.error e =>
      { result := Except.error (RunError.tempFile e)
        invocation := none, removeAttempted := false, warnings := [] }
    | Except.ok name =>
      let removalWarnings :=
        if world.removeOk then []
        else ["Error while removing scan report file"]
      let inv : Invocation :=
        { args := trivyArgs config name imageRef
          env := cmdEnv environ auth insecureRegistry }
      match world.execErr with
      | some e =>
        { result := Except.error (RunError.scanFailed
            ("running trivy: " ++ e ++ ": " ++ world.stderr))
          invocation := some inv
          removeAttempted := true
          warnings := removalWarnings }
      | none =>
        match parseScanReports world.reportFile with
        | Except.error pe =>
          { result := Except.error (RunError.parseFailed pe)
            invocation := some inv
            removeAttempted := true
            warnings := removalWarnings }
        | Except.ok rep =>
          { result := Except.ok rep
            invocation := some inv
            removeAttempted := true
            warnings := removalWarnings }

/-- A sample decoded report input: two sub-reports with distinct targets,
two vulnerabilities in the first and one in the second. -/
def sampleInput : ReportInput :=
  ReportInput.json (Json.arr
    [Json.obj [("Target", Json.str "alpine:3.10 (alpine 3.10.2)"),
       ("Vulnerabilities", Json.arr
         [Json.obj [("VulnerabilityID", Json.str "CVE-2019-0001")],
          Json.obj [("VulnerabilityID", Json.str "CVE-2019-0002")]])],
     Json.obj [("Target", Json.str "node-app/package-lock.json"),
       ("Vulnerabilities", Json.arr
         [Json.obj [("VulnerabilityID", Json.str "CVE-2019-0003")]])]])

/-- The list of sub-reports `sampleInput` decodes to. -/
def sampleReports : List ScanReport :=
  [⟨"alpine:3.10 (alpine 3.10.2)",
    some [⟨"CVE-2019-0001"⟩, ⟨"CVE-2019-0002"⟩]⟩,
   ⟨"node-app/package-lock.json", some [⟨"CVE-2019-0003"⟩]⟩]

/-- Folding list appends from the left is concatenation: the loop
`for _, r := range reports { acc = append(acc, f(r)...) }` computes
`acc ++ flatten (map f reports)`. -/
theorem foldl_append_eq_flatten {α β : Type} (f : α → List β) :
    ∀ (l : List α) (acc : List β),
      l.foldl (fun a r => a ++ f r) acc = acc ++ (l.map f).flatten := by
  intro l
  induction l with
  | nil => intro acc; simp
  | cons r t ih => intro acc; simp [List.foldl_cons, ih, List.append_assoc]

/-- A credential username entry never collides with the non-SSL entry:
the two strings differ within their first seven characters. -/
theorem username_entry_ne_nonssl (u : String) :
    ("TRIVY_USERNAME=" ++ u) ≠ "TRIVY_NON_SSL=true" := by
  intro h
  have h2 : ("TRIVY_USERNAME=" ++ u).data
      = ("TRIVY_NON_SSL=true" : String).data := by rw [h]
  rw [String.data_append] at h2
  have h3 := congrArg (List.take 7) h2
  rw [List.take_append_of_le_length (by decide)] at h3
  exact absurd h3 (by decide)

/-- A credential password entry never collides with the non-SSL entry:
the two strings differ within their first seven characters. -/
theorem password_entry_ne_nonssl (p : String) :
    ("TRIVY_PASSWORD=" ++ p) ≠ "TRIVY_NON_SSL=true" := by
  intro h
  have h2 : ("TRIVY_PASSWORD=" ++ p).data
      = ("TRIVY_NON_SSL=true" : String).data := by rw [h]
  rw [String.data_append] at h2
  have h3 := congrArg (List.take 7) h2
  rw [List.take_append_of_le_length (by decide)] at h3
  exact absurd h3 (by decide)

/-- The non-SSL entry never collides with a credential username entry. -/
theorem nonssl_ne_username_entry (u : String) :
    "TRIVY_NON_SSL=true" ≠ ("TRIVY_USERNAME=" ++ u) :=
  fun h => username_entry_ne_nonssl u h.symm

/-- The non-SSL entry never collides with a credential password entry. -/
theorem nonssl_ne_password_entry (p : String) :
    "TRIVY_NON_SSL=true" ≠ ("TRIVY_PASSWORD=" ++ p) :=
  fun h => password_entry_ne_nonssl p h.symm

/-- Closed form of `Run` once the executable is found and the temp file is
created: the result is decided by the subprocess outcome and the report
parse, the subprocess is invoked with `trivyArgs` and `cmdEnv`, removal of
the temp file is attempted, and a removal failure only adds a warning. -/
theorem Run_eq (config : Trivy) (world : RunWorld) (imageRef : String)
    (auth : RegistryAuth) (insecureRegistry : Bool) (environ : List String)
    (exe name : String)
    (h1 : world.trivyPath = Except.ok exe)
    (h2 : world.tempFileName = Except.ok name) :
    Run config world imageRef auth insecureRegistry environ =
      { result :=
          match world.execErr with
          | some e => Except.error (RunError.scanFailed
              ("running trivy: " ++ e ++ ": " ++ world.stderr))
          | none =>
            match parseScanReports world.reportFile with
            | Except.error pe => Except.error (RunError.parseFailed pe)
            | Except.ok rep => Except.ok rep
        invocation := some ⟨trivyArgs config name imageRef,
                            cmdEnv environ auth insecureRegistry⟩
        removeAttempted := true
        warnings := if world.removeOk then []
                    else ["Error while removing scan report file"] } := by
  unfold Run
  rw [h1, h2]
  cases hE : world.execErr with
  | some e => rfl
  | none => cases hP : parseScanReports world.reportFile <;> rfl

/-- Closed form of the argument list: the two conditional prepends followed
by the fixed base flags and the trailing image reference. -/
theorem trivyArgs_eq (config : Trivy) (name imageRef : String) :
    trivyArgs config name imageRef =
      (if config.DebugMode then ["--debug"] else []) ++
      (if config.IgnoreUnfixed then ["--ignore-unfixed"] else []) ++
      ["--no-progress",
       "--cache-dir", config.CacheDir,
       "--severity", config.Severity,
       "--vuln-type", config.VulnType,
       "--format", "json",
       "--output", name,
       imageRef] := by
  unfold trivyArgs
  cases hD : config.DebugMode <;> cases hI : config.IgnoreUnfixed <;> simp [hD, hI]

/-- C1: for every decoded non-empty sequence of sub-reports,
`parseScanReports` returns an aggregate whose `Vulnerabilities` sequence is
exactly the concatenation, in sub-report order, of every sub-report's
vulnerability sequence; in particular its length is the sum of the
sub-reports' vulnerability-list lengths. -/
theorem parseScanReports_concat (input : ReportInput)
    (reports : List ScanReport)
    (h : decodeScanReports input = Except.ok reports) (hne : reports ≠ []) :
    ∃ agg, parseScanReports input = Except.ok agg ∧
      agg.Vulnerabilities = some ((reports.map vulnsOf).flatten) ∧
      (agg.Vulnerabilities.getD []).length
        = (reports.map (fun r => (vulnsOf r).length)).sum := by
  cases reports with
  | nil => exact absurd rfl hne
  | cons first rest =>
    have hfold : (first :: rest).foldl
        (fun acc sr => acc ++ sr.Vulnerabilities.getD []) []
        = ((first :: rest).map vulnsOf).flatten := by
      rw [show (fun acc sr => acc ++ sr.Vulnerabilities.getD [])
            = fun (acc : List Vulnerability) sr => acc ++ vulnsOf sr from rfl]
      rw [foldl_append_eq_flatten vulnsOf (first :: rest) []]
      rfl
    refine ⟨{ Target := first.Target,
              Vulnerabilities := some (((first :: rest).map vulnsOf).flatten) },
            ?_, rfl, ?_⟩
    · unfold parseScanReports
      rw [h]
      show Except.ok
          ({ Target := first.Target,
             Vulnerabilities := some ((first :: rest).foldl
               (fun acc sr => acc ++ sr.Vulnerabilities.getD []) []) } : ScanReport)
        = _
      rw [hfold]
    · simp [List.length_flatten, List.map_map, Function.comp_def]

/-- C1 witness: on `sampleInput`, the aggregate's vulnerability list is the
three sample CVEs in order and its length is the sum 2 + 1. -/
theorem parseScanReports_concat_witness :
    decodeScanReports sampleInput = Except.ok sampleReports ∧
    sampleReports ≠ [] ∧
    ∃ agg, parseScanReports sampleInput = Except.ok agg ∧
      agg.Vulnerabilities = some ((sampleReports.map vulnsOf).flatten) ∧
      (agg.Vulnerabilities.getD []).length
        = (sampleReports.map (fun r => (vulnsOf r).length)).sum :=
  ⟨by rfl, by simp [sampleReports],
   parseScanReports_concat sampleInput sampleReports (by rfl)
     (by simp [sampleReports])⟩

/-- C2: the aggregate's `Target` equals the first sub-report's `Target`,
whatever the later sub-reports' targets are. -/
theorem parseScanReports_target (input : ReportInput) (first : ScanReport)
    (rest : List ScanReport)
    (h : decodeScanReports input = Except.ok (first :: rest)) :
    ∃ agg, parseScanReports input = Except.ok agg ∧
      agg.Target = first.Target := by
  unfold parseScanReports
  rw [h]
  exact ⟨_, rfl, rfl⟩

/-- C2 witness: on `sampleInput` the aggregate's target is the first
sub-report's target, although the second sub-report has a different one. -/
theorem parseScanReports_target_witness :
    decodeScanReports sampleInput
      = Except.ok (⟨"alpine:3.10 (alpine 3.10.2)",
          some [⟨"CVE-2019-0001"⟩, ⟨"CVE-2019-0002"⟩]⟩ ::
          [⟨"node-app/package-lock.json", some [⟨"CVE-2019-0003"⟩]⟩]) ∧
    ∃ agg, parseScanReports sampleInput = Except.ok agg ∧
      agg.Target = (⟨"alpine:3.10 (alpine 3.10.2)",
        some [⟨"CVE-2019-0001"⟩, ⟨"CVE-2019-0002"⟩]⟩ : ScanReport).Target :=
  ⟨by rfl, parseScanReports_target sampleInput _ _ (by rfl)⟩

/-- C3: an input decoding to zero sub-reports makes `parseScanReports`
fail with the empty-report error; no aggregate (in particular none with
zero vulnerabilities) is returned. -/
theorem parseScanReports_empty (input : ReportInput)
    (h : decodeScanReports input = Except.ok []) :
    parseScanReports input = Except.error ParseError.emptyReport ∧
    ∀ agg : ScanReport, parseScanReports input ≠ Except.ok agg := by
  have hmain : parseScanReports input = Except.error ParseError.emptyReport := by
    unfold parseScanReports
    rw [h]
  exact ⟨hmain, fun agg hagg => by rw [hmain] at hagg; exact absurd hagg (by simp)⟩

/-- C3 witness: the empty JSON array `[]` fails with the empty-report
error. -/
theorem parseScanReports_empty_witness :
    decodeScanReports (ReportInput.json (Json.arr [])) = Except.ok [] ∧
    (parseScanReports (ReportInput.json (Json.arr []))
        = Except.error ParseError.emptyReport ∧
      ∀ agg : ScanReport,
        parseScanReports (ReportInput.json (Json.arr [])) ≠ Except.ok agg) :=
  ⟨by rfl, parseScanReports_empty (ReportInput.json (Json.arr [])) (by rfl)⟩

/-- C4: whenever decoding fails, `parseScanReports` returns the
decode-error class wrapping the underlying decoder error, its message
embeds that underlying error, and no aggregate is produced. -/
theorem parseScanReports_decode_error (input : ReportInput) (e : String)
    (h : decodeScanReports input = Except.error e) :
    parseScanReports input = Except.error (ParseError.decodeError e) ∧
    (ParseError.decodeError e).message = "decoding scan report from file " ++ e ∧
    ∀ agg : ScanReport, parseScanReports input ≠ Except.ok agg := by
  have hmain : parseScanReports input
      = Except.error (ParseError.decodeError e) := by
    unfold parseScanReports
    rw [h]
  exact ⟨hmain, rfl,
    fun agg hagg => by rw [hmain] at hagg; exact absurd hagg (by simp)⟩

/-- C4 witness: a bare JSON object instead of an array fails with the
decode-error class. -/
theorem parseScanReports_decode_error_witness :
    decodeScanReports (ReportInput.json (Json.obj []))
      = Except.error "json: cannot unmarshal value into []ScanReport" ∧
    (parseScanReports (ReportInput.json (Json.obj []))
        = Except.error (ParseError.decodeError
            "json: cannot unmarshal value into []ScanReport") ∧
      (ParseError.decodeError
          "json: cannot unmarshal value into []ScanReport").message
        = "decoding scan report from file " ++
            "json: cannot unmarshal value into []ScanReport" ∧
      ∀ agg : ScanReport,
        parseScanReports (ReportInput.json (Json.obj [])) ≠ Except.ok agg) :=
  ⟨by rfl, parseScanReports_decode_error (ReportInput.json (Json.obj [])) _ (by rfl)⟩

/-- C10: every successful `parseScanReports` result carries an initialized
(`some`, possibly empty) vulnerability list, never the nil slice. -/
theorem parseScanReports_initialized (input : ReportInput) (agg : ScanReport)
    (h : parseScanReports input = Except.ok agg) :
    ∃ vs : List Vulnerability, agg.Vulnerabilities = some vs := by
  unfold parseScanReports at h
  cases hd : decodeScanReports input with
  | error e => rw [hd] at h; exact absurd h (by simp)
  | ok reports =>
    rw [hd] at h
    cases reports with
    | nil => exact absurd h (by simp)
    | cons first rest =>
      simp only [Except.ok.injEq] at h
      exact ⟨_, congrArg ScanReport.Vulnerabilities h.symm⟩

/-- C10 witness: with every sub-report's vulnerability slice null or
absent, the aggregate still carries the initialized empty list `some []`,
not the nil slice. -/
theorem parseScanReports_initialized_witness :
    parseScanReports (ReportInput.json (Json.arr
        [Json.obj [("Target", Json.str "t1")],
         Json.obj [("Target", Json.str "t2"),
                   ("Vulnerabilities", Json.null)]]))
      = Except.ok ⟨"t1", some []⟩ ∧
    ∃ vs : List Vulnerability,
      (⟨"t1", some []⟩ : ScanReport).Vulnerabilities = some vs :=
  ⟨by rfl,
   parseScanReports_initialized (ReportInput.json (Json.arr
        [Json.obj [("Target", Json.str "t1")],
         Json.obj [("Target", Json.str "t2"),
                   ("Vulnerabilities", Json.null)]])) ⟨"t1", some []⟩ (by rfl)⟩

/-- C5: the subprocess environment is the ambient environment plus the
overlay, and each credential entry individually —
`TRIVY_USERNAME=<username>` and likewise `TRIVY_PASSWORD=<password>` — is
in the overlay if and only if both the username and the password are
non-empty; so when either is empty, neither credential entry is added. -/
theorem Run_env_credentials (environ : List String) (auth : RegistryAuth)
    (insecureRegistry : Bool) :
    cmdEnv environ auth insecureRegistry
      = environ ++ envOverlay auth insecureRegistry ∧
    (("TRIVY_USERNAME=" ++ auth.Username)
        ∈ envOverlay auth insecureRegistry
      ↔ (auth.Username ≠ "" ∧ auth.Password ≠ "")) ∧
    (("TRIVY_PASSWORD=" ++ auth.Password)
        ∈ envOverlay auth insecureRegistry
      ↔ (auth.Username ≠ "" ∧ auth.Password ≠ "")) := by
  refine ⟨?_, ?_, ?_⟩
  · unfold envOverlay cmdEnv
    by_cases hc : auth.Username ≠ "" ∧ auth.Password ≠ "" <;>
      cases insecureRegistry <;> simp [hc]
  · unfold envOverlay cmdEnv
    by_cases hc : auth.Username ≠ "" ∧ auth.Password ≠ "" <;>
      cases insecureRegistry <;>
        simp [hc, username_entry_ne_nonssl]
  · unfold envOverlay cmdEnv
    by_cases hc : auth.Username ≠ "" ∧ auth.Password ≠ "" <;>
      cases insecureRegistry <;>
        simp [hc, password_entry_ne_nonssl]

/-- C6: the overlay contains the entry `TRIVY_NON_SSL=true` if and only if
the insecure-registry flag is set; when the flag is false the entry is
absent whatever the credentials are. -/
theorem Run_env_insecure (auth : RegistryAuth) (insecureRegistry : Bool) :
    ("TRIVY_NON_SSL=true" ∈ envOverlay auth insecureRegistry)
      ↔ insecureRegistry = true := by
  unfold envOverlay cmdEnv
  by_cases hc : auth.Username ≠ "" ∧ auth.Password ≠ "" <;>
    cases insecureRegistry <;>
      simp [hc, nonssl_ne_username_entry, nonssl_ne_password_entry]

/-- C7: once the executable is found and the temp file created, the
subprocess is invoked with exactly the base flags in fixed order ending in
the image reference, with `--ignore-unfixed` prepended exactly when
configured and `--debug` prepended exactly when configured. -/
theorem Run_args (config : Trivy) (world : RunWorld) (imageRef : String)
    (auth : RegistryAuth) (insecureRegistry : Bool) (environ : List String)
    (exe name : String)
    (h1 : world.trivyPath = Except.ok exe)
    (h2 : world.tempFileName = Except.ok name) :
    ∃ env, (Run config world imageRef auth insecureRegistry environ).invocation
      = some ⟨(if config.DebugMode then ["--debug"] else []) ++
              (if config.IgnoreUnfixed then ["--ignore-unfixed"] else []) ++
              ["--no-progress",
               "--cache-dir", config.CacheDir,
               "--severity", config.Severity,
               "--vuln-type", config.VulnType,
               "--format", "json",
               "--output", name,
               imageRef], env⟩ := by
  refine ⟨cmdEnv environ auth insecureRegistry, ?_⟩
  rw [Run_eq config world imageRef auth insecureRegistry environ exe name h1 h2]
  show some (Invocation.mk (trivyArgs config name imageRef)
    (cmdEnv environ auth insecureRegistry)) = _
  rw [trivyArgs_eq]

/-- C7 witness: with both boolean flags set, the argument list carries both
prepends and ends in the image reference. -/
theorem Run_args_witness :
    (⟨Except.ok "/usr/local/bin/trivy", Except.ok "/tmp/scan_report_1.json",
        none, "", ReportInput.json Json.null, true⟩ : RunWorld).trivyPath
      = Except.ok "/usr/local/bin/trivy" ∧
    (⟨Except.ok "/usr/local/bin/trivy", Except.ok "/tmp/scan_report_1.json",
        none, "", ReportInput.json Json.null, true⟩ : RunWorld).tempFileName
      = Except.ok "/tmp/scan_report_1.json" ∧
    ∃ env, (Run ⟨"/tmp/reports", "/tmp/cache", "High", "os", true, true⟩
        ⟨Except.ok "/usr/local/bin/trivy", Except.ok "/tmp/scan_report_1.json",
          none, "", ReportInput.json Json.null, true⟩
        "alpine:3.10" ⟨"user", "pass"⟩ false []).invocation
      = some ⟨(if (⟨"/tmp/reports", "/tmp/cache", "High", "os", true, true⟩ : Trivy).DebugMode
                 then ["--debug"] else []) ++
              (if (⟨"/tmp/reports", "/tmp/cache", "High", "os", true, true⟩ : Trivy).IgnoreUnfixed
                 then ["--ignore-unfixed"] else []) ++
              ["--no-progress",
               "--cache-dir", "/tmp/cache",
               "--severity", "High",
               "--vuln-type", "os",
               "--format", "json",
               "--output", "/tmp/scan_report_1.json",
               "alpine:3.10"], env⟩ :=
  ⟨rfl, rfl,
   Run_args ⟨"/tmp/reports", "/tmp/cache", "High", "os", true, true⟩
     ⟨Except.ok "/usr/local/bin/trivy", Except.ok "/tmp/scan_report_1.json",
       none, "", ReportInput.json Json.null, true⟩
     "alpine:3.10" ⟨"user", "pass"⟩ false []
     "/usr/local/bin/trivy" "/tmp/scan_report_1.json" rfl rfl⟩

/-- C8: when the subprocess fails, `Run` returns the scan-execution error
whose message combines the underlying error with the captured stderr (the
stderr text is a substring of the message), and no report is returned. -/
theorem Run_exec_error (config : Trivy) (world : RunWorld) (imageRef : String)
    (auth : RegistryAuth) (insecureRegistry : Bool) (environ : List String)
    (exe name e : String)
    (h1 : world.trivyPath = Except.ok exe)
    (h2 : world.tempFileName = Except.ok name)
    (h3 : world.execErr = some e) :
    (Run config world imageRef auth insecureRegistry environ).result
      = Except.error (RunError.scanFailed
          ("running trivy: " ++ e ++ ": " ++ world.stderr)) ∧
    (∀ rep : ScanReport,
      (Run config world imageRef auth insecureRegistry environ).result
        ≠ Except.ok rep) ∧
    world.stderr.data <:+:
      ("running trivy: " ++ e ++ ": " ++ world.stderr).data := by
  have hmain : (Run config world imageRef auth insecureRegistry environ).result
      = Except.error (RunError.scanFailed
          ("running trivy: " ++ e ++ ": " ++ world.stderr)) := by
    rw [Run_eq config world imageRef auth insecureRegistry environ exe name h1 h2]
    show (match world.execErr with
      | some e => Except.error (RunError.scanFailed
          ("running trivy: " ++ e ++ ": " ++ world.stderr))
      | none =>
        match parseScanReports world.reportFile with
        | Except.error pe => Except.error (RunError.parseFailed pe)
        | Except.ok rep => Except.ok rep) = _
    rw [h3]
  refine ⟨hmain,
    fun rep hrep => by rw [hmain] at hrep; exact absurd hrep (by simp), ?_⟩
  have hdata : ("running trivy: " ++ e ++ ": " ++ world.stderr).data
      = ("running trivy: " ++ e ++ ": ").data ++ world.stderr.data := by
    rw [String.data_append]
  rw [hdata]
  exact (List.suffix_append _ _).isInfix

/-- C8 witness: a scanner exiting with status 1 and stderr
`"unable to pull image"` yields the scan-execution error whose message
contains `"unable to pull image"`, and no aggregate report. -/
theorem Run_exec_error_witness :
    (⟨Except.ok "/usr/local/bin/trivy", Except.ok "/tmp/scan_report_2.json",
        some "exit status 1", "unable to pull image",
        ReportInput.json Json.null, true⟩ : RunWorld).execErr
      = some "exit status 1" ∧
    ((Run ⟨"/tmp/reports", "/tmp/cache", "High", "os", false, false⟩
        ⟨Except.ok "/usr/local/bin/trivy", Except.ok "/tmp/scan_report_2.json",
          some "exit status 1", "unable to pull image",
          ReportInput.json Json.null, true⟩
        "alpine:3.10" ⟨"", ""⟩ false []).result
      = Except.error (RunError.scanFailed
          ("running trivy: " ++ "exit status 1" ++ ": " ++ "unable to pull image")) ∧
    (∀ rep : ScanReport,
      (Run ⟨"/tmp/reports", "/tmp/cache", "High", "os", false, false⟩
        ⟨Except.ok "/usr/local/bin/trivy", Except.ok "/tmp/scan_report_2.json",
          some "exit status 1", "unable to pull image",
          ReportInput.json Json.null, true⟩
        "alpine:3.10" ⟨"", ""⟩ false []).result ≠ Except.ok rep) ∧
    ("unable to pull image" : String).data <:+:
      ("running trivy: " ++ "exit status 1" ++ ": " ++ "unable to pull image").data) :=
  ⟨rfl,
   Run_exec_error ⟨"/tmp/reports", "/tmp/cache", "High", "os", false, false⟩
     ⟨Except.ok "/usr/local/bin/trivy", Except.ok "/tmp/scan_report_2.json",
       some "exit status 1", "unable to pull image",
       ReportInput.json Json.null, true⟩
     "alpine:3.10" ⟨"", ""⟩ false []
     "/usr/local/bin/trivy" "/tmp/scan_report_2.json" "exit status 1"
     rfl rfl rfl⟩

/-- C9: once the temp report file is created, its removal is attempted on
every exit path of `Run`; whether removal succeeds never changes the
returned result, and a removal failure is only logged as a warning. -/
theorem Run_cleanup (config : Trivy) (world : RunWorld) (imageRef : String)
    (auth : RegistryAuth) (insecureRegistry : Bool) (environ : List String)
    (exe name : String)
    (h1 : world.trivyPath = Except.ok exe)
    (h2 : world.tempFileName = Except.ok name) :
    (Run config world imageRef auth insecureRegistry environ).removeAttempted
      = true ∧
    (∀ b : Bool,
      (Run config { world with removeOk := b } imageRef auth insecureRegistry
          environ).result
        = (Run config world imageRef auth insecureRegistry environ).result) ∧
    (Run config { world with removeOk := false } imageRef auth
        insecureRegistry environ).warnings
      = ["Error while removing scan report file"] := by
  refine ⟨?_, ?_, ?_⟩
  · rw [Run_eq config world imageRef auth insecureRegistry environ exe name h1 h2]
  · intro b
    rw [Run_eq config { world with removeOk := b } imageRef auth
          insecureRegistry environ exe name h1 h2,
        Run_eq config world imageRef auth insecureRegistry environ exe name h1 h2]
  · rw [Run_eq config { world with removeOk := false } imageRef auth
          insecureRegistry environ exe name h1 h2]
    rfl

/-- C9 witness: on a concrete successful scan, removal is attempted, the
result does not depend on whether removal succeeds, and a failed removal
logs the warning. -/
theorem Run_cleanup_witness :
    (⟨Except.ok "/usr/local/bin/trivy", Except.ok "/tmp/scan_report_3.json",
        none, "", sampleInput, true⟩ : RunWorld).tempFileName
      = Except.ok "/tmp/scan_report_3.json" ∧
    ((Run ⟨"/tmp/reports", "/tmp/cache", "High", "os", false, false⟩
        ⟨Except.ok "/usr/local/bin/trivy", Except.ok "/tmp/scan_report_3.json",
          none, "", sampleInput, true⟩
        "alpine:3.10" ⟨"", ""⟩ false []).removeAttempted = true ∧
    (∀ b : Bool,
      (Run ⟨"/tmp/reports", "/tmp/cache", "High", "os", false, false⟩
        { (⟨Except.ok "/usr/local/bin/trivy", Except.ok "/tmp/scan_report_3.json",
            none, "", sampleInput, true⟩ : RunWorld) with removeOk := b }
        "alpine:3.10" ⟨"", ""⟩ false []).result
        = (Run ⟨"/tmp/reports", "/tmp/cache", "High", "os", false, false⟩
            ⟨Except.ok "/usr/local/bin/trivy", Except.ok "/tmp/scan_report_3.json",
              none, "", sampleInput, true⟩
            "alpine:3.10" ⟨"", ""⟩ false []).result) ∧
    (Run ⟨"/tmp/reports", "/tmp/cache", "High", "os", false, false⟩
        { (⟨Except.ok "/usr/local/bin/trivy", Except.ok "/tmp/scan_report_3.json",
            none, "", sampleInput, true⟩ : RunWorld) with removeOk := false }
        "alpine:3.10" ⟨"", ""⟩ false []).warnings
      = ["Error while removing scan report file"]) :=
  ⟨rfl,
   Run_cleanup ⟨"/tmp/reports", "/tmp/cache", "High", "os", false, false⟩
     ⟨Except.ok "/usr/local/bin/trivy", Except.ok "/tmp/scan_report_3.json",
       none, "", sampleInput, true⟩
     "alpine:3.10" ⟨"", ""⟩ false []
     "/usr/local/bin/trivy" "/tmp/scan_report_3.json" rfl rfl⟩
